import Mathlib

/-!
Verification of the H02 GPS protocol decoder (gigamarr/gps-station).

Shallow embedding of `src/protocols/h02.py` and
`src/protocols/h02/packet_decoder/packet_decoder.py`.

Modelling conventions:
* Python strings are `List Char`; Python byte strings are `List Nat`
  (one `Nat` per byte).
* Python exceptions are the constructors of `PyError`; a fallible
  operation returns `Except PyError α`.  Python's `int(s, 16)` and
  `float(s)` raise `ValueError` on bad input; `match.group(i)` on a
  failed (`None`) match raises `AttributeError`; a negative shift
  count raises `ValueError`.
* Python floats are modelled as exact rationals (`ℚ`); `format(x, '.Nf')`
  followed by `float(...)` is modelled as rounding the exact rational to
  N decimal places with ties to even (`roundTo`).
-/

/-- Python exception classes raised (or caught) by the code under
verification.  `BadProtocolError` is the exception the spec calls
`UnsupportedFrameError`; `RegExMatchError` is the spec's
`MalformedPacketError`. -/
inductive PyError : Type where
  | AttributeError : PyError
  | ValueError : PyError
  | IndexError : PyError
  | BadProtocolError : PyError
  | RegExMatchError : PyError
  | UnicodeDecodeError : PyError
  deriving DecidableEq, Repr

/-- ASCII decimal digit test (`\d` of the source's regex patterns,
restricted to ASCII). -/
def isDigit (c : Char) : Bool := 48 ≤ c.toNat && c.toNat ≤ 57

/-- Value of one hexadecimal digit, case-insensitive, as accepted by
Python's `int(_, 16)`. -/
def hexDigitVal (c : Char) : Option Nat :=
  if 48 ≤ c.toNat ∧ c.toNat ≤ 57 then some (c.toNat - 48)
  else if 97 ≤ c.toNat ∧ c.toNat ≤ 102 then some (c.toNat - 87)
  else if 65 ≤ c.toNat ∧ c.toNat ≤ 70 then some (c.toNat - 55)
  else none

/-- Numeric value of a list of decimal digit characters, most
significant first. -/
def digitsVal (l : List Char) : Nat :=
  l.foldl (fun a c => 10 * a + (c.toNat - 48)) 0

/-- `int(s, 16)` of Python on a string of plain hexadecimal digits:
`some` of the value when every character is a hex digit and the string
is nonempty, `none` (a `ValueError`) otherwise. -/
def parseHexDigits (l : List Char) : Option Nat :=
  if l ≠ [] ∧ l.all (fun c => (hexDigitVal c).isSome) then
    some (l.foldl (fun a c => 16 * a + (hexDigitVal c).getD 0) 0)
  else none

/-- `H02.get_bit_state` (src/protocols/h02.py:120-145).

```python
byte_val = int(hex_byte, 16)
mask = 0b1 << attribute_bit_location - 1
if not byte_val & mask:
    return 1
else:
    return 0
```

`int(hex_byte, 16)` raises `ValueError` on a non-hex string, and the
shift raises `ValueError` when `attribute_bit_location - 1` is
negative.  There is no range check on the bit position. -/
def get_bit_state (hex_byte : List Char) (attribute_bit_location : Int) :
    Except PyError Nat :=
  match parseHexDigits hex_byte with
  | none => .error .ValueError
  | some byte_val =>
    if attribute_bit_location - 1 < 0 then .error .ValueError
    else
      let mask := 1 <<< (attribute_bit_location - 1).toNat
      if byte_val &&& mask = 0 then .ok 1 else .ok 0

-- Helper lemmas about hex parsing.

theorem hexDigitVal_le (c : Char) (v : Nat) (h : hexDigitVal c = some v) :
    v ≤ 15 := by
  unfold hexDigitVal at h
  split at h
  · simp only [Option.some.injEq] at h; omega
  · split at h
    · simp only [Option.some.injEq] at h; omega
    · split at h
      · simp only [Option.some.injEq] at h; omega
      · exact absurd h (by simp)

theorem parseHexDigits_pair (c1 c2 : Char) (v1 v2 : Nat)
    (h1 : hexDigitVal c1 = some v1) (h2 : hexDigitVal c2 = some v2) :
    parseHexDigits [c1, c2] = some (16 * v1 + v2) := by
  simp [parseHexDigits, h1, h2, List.foldl]

theorem parseHexDigits_pair_lt (c1 c2 : Char) (v : Nat)
    (h : parseHexDigits [c1, c2] = some v) : v < 256 := by
  unfold parseHexDigits at h
  split at h
  · rename_i hc
    obtain ⟨-, hall⟩ := hc
    simp only [List.all_cons, List.all_nil, Bool.and_true, Bool.and_eq_true,
      Option.isSome_iff_exists] at hall
    obtain ⟨⟨w1, hw1⟩, ⟨w2, hw2⟩⟩ := hall
    simp only [List.foldl, Option.some.injEq] at h
    rw [hw1, hw2] at h
    simp only [Option.getD_some] at h
    have b1 := hexDigitVal_le c1 w1 hw1
    have b2 := hexDigitVal_le c2 w2 hw2
    omega
  · exact absurd h (by simp)

/-- C1: for every valid 2-hex-character status byte token and every bit
position 1–8, `get_bit_state` returns 0 (inactive/false) iff the bit of
the parsed 8-bit value at the 1-indexed position (position 1 = least
significant bit) is 1, and 1 (active/true) iff that bit is 0: the
protocol's negative-logic convention. -/
theorem get_bit_state_negative_logic (c1 c2 : Char) (v : Nat) (pos : Int)
    (hv : parseHexDigits [c1, c2] = some v) (h1 : 1 ≤ pos) (h8 : pos ≤ 8) :
    (get_bit_state [c1, c2] pos = .ok 0 ↔ v.testBit (pos - 1).toNat = true) ∧
    (get_bit_state [c1, c2] pos = .ok 1 ↔ v.testBit (pos - 1).toNat = false) := by
  have hneg : ¬(pos - 1 < 0) := by omega
  have hpow : 0 < (2 : ℕ) ^ (pos - 1).toNat := pow_pos (by norm_num) _
  unfold get_bit_state
  rw [hv]
  simp only [hneg, if_false, Nat.one_shiftLeft, Nat.and_two_pow]
  cases h : v.testBit (pos - 1).toNat with
  | false => simp
  | true =>
    have : ¬((Bool.true.toNat) * 2 ^ (pos - 1).toNat = 0) := by
      simp
    simp [this]

/-- Witness for C1 at token "9F", position 6: 0x9F = 159 = 0b10011111,
bit 6 (index 5) is 0, so the read reports active (1). -/
theorem get_bit_state_negative_logic_witness :
    (get_bit_state ['9', 'F'] 6 = .ok 0 ↔
      Nat.testBit 159 ((6 : Int) - 1).toNat = true) ∧
    (get_bit_state ['9', 'F'] 6 = .ok 1 ↔
      Nat.testBit 159 ((6 : Int) - 1).toNat = false) :=
  get_bit_state_negative_logic '9' 'F' 159 6 (by decide) (by decide) (by decide)

/-- C5 (amended): for every token and every bit position at most 0 (in
particular 0 and -1), `get_bit_state` fails with a `ValueError` (the
negative shift count), not a dedicated `InvalidBitPositionError`;
positions 9 and above do not fail at all. -/
theorem get_bit_state_nonpositive_pos_value_error (tok : List Char) (pos : Int)
    (h : pos ≤ 0) : get_bit_state tok pos = .error .ValueError := by
  unfold get_bit_state
  cases hp : parseHexDigits tok with
  | none => rfl
  | some v =>
    have hlt : pos - 1 < 0 := by omega
    simp [hlt]

/-- Witness for the amended C5 at token "FF", position 0. -/
theorem get_bit_state_nonpositive_pos_value_error_witness :
    get_bit_state ['F', 'F'] 0 = .error .ValueError :=
  get_bit_state_nonpositive_pos_value_error ['F', 'F'] 0 (by decide)

/-- Counterexample to C5 as stated: at token "FF" and out-of-range
position 9 the read raises no error and returns 1 (active). -/
theorem get_bit_state_pos_nine_no_error :
    get_bit_state ['F', 'F'] 9 = .ok 1 := by rfl

/-- C9: for every valid 2-hex-character token and every bit position at
least 9, `get_bit_state` raises no error and returns 1 (active): the
mask bit is beyond the 8 bits of the parsed value, so the conjunction is
0 and the negative-logic branch reports active. -/
theorem get_bit_state_pos_ge_nine_active (c1 c2 : Char) (v : Nat) (pos : Int)
    (hv : parseHexDigits [c1, c2] = some v) (h9 : 9 ≤ pos) :
    get_bit_state [c1, c2] pos = .ok 1 := by
  have hlt : v < 256 := parseHexDigits_pair_lt c1 c2 v hv
  have hneg : ¬(pos - 1 < 0) := by omega
  unfold get_bit_state
  rw [hv]
  simp only [hneg, if_false, Nat.one_shiftLeft, Nat.and_two_pow]
  have hbit : v.testBit (pos.toNat - 1) = false := by
    apply Nat.testBit_eq_false_of_lt
    calc v < 256 := hlt
    _ = 2 ^ 8 := by norm_num
    _ ≤ 2 ^ (pos.toNat - 1) := Nat.pow_le_pow_right (by norm_num) (by omega)
  have hbit' : v.testBit (pos - 1).toNat = false := by
    have he : (pos - 1).toNat = pos.toNat - 1 := by omega
    rw [he]; exact hbit
  simp [hbit, hbit']

/-- Witness for C9 at token "FF", position 10. -/
theorem get_bit_state_pos_ge_nine_active_witness :
    get_bit_state ['F', 'F'] 10 = .ok 1 :=
  get_bit_state_pos_ge_nine_active 'F' 'F' 255 10 (by decide) (by decide)

/-- Round an integer-valued choice for `q`: nearest integer, ties to
even.  Used to model Python's `format(x, '.Nf')` on the exact rational
value. -/
def rndHalfEven (q : ℚ) : ℤ :=
  let f := ⌊q⌋
  let r := q - f
  if r < 1 / 2 then f
  else if 1 / 2 < r then f + 1
  else if f % 2 = 0 then f else f + 1

/-- `float(format(x, '.Nf'))` of Python, modelled exactly over `ℚ`:
round to `n` decimal places, ties to even. -/
def roundTo (n : ℕ) (q : ℚ) : ℚ :=
  (rndHalfEven (q * 10 ^ n) : ℚ) / 10 ^ n

/-- Split a character list at its first `'.'`, `none` when there is no
`'.'`. -/
def splitDot : List Char → Option (List Char × List Char)
  | [] => none
  | c :: rest =>
    if c = '.' then some ([], rest)
    else
      match splitDot rest with
      | some (a, b) => some (c :: a, b)
      | none => none

/-- `float(s)` of Python restricted to the plain unsigned decimal
forms the decoder can meet: a nonempty digit string, or digits, one
`'.'`, digits.  Everything else is `none` (a `ValueError`). -/
def floatParse (l : List Char) : Option ℚ :=
  match splitDot l with
  | none => if l ≠ [] ∧ l.all isDigit then some ((digitsVal l : ℚ)) else none
  | some (ip, fp) =>
    if (ip ≠ [] ∨ fp ≠ []) ∧ ip.all isDigit ∧ fp.all isDigit then
      some ((digitsVal ip : ℚ) + (digitsVal fp : ℚ) / 10 ^ fp.length)
    else none

/-- `int(s)` of Python on an optionally `-`-signed decimal digit
string; `none` (a `ValueError`) otherwise. -/
def pyInt (l : List Char) : Option ℤ :=
  match l with
  | [] => none
  | c :: ds =>
    if c = '-' then
      if ds ≠ [] ∧ ds.all isDigit then some (-(digitsVal ds : ℤ)) else none
    else if (c :: ds).all isDigit then some ((digitsVal (c :: ds) : ℤ))
    else none

/-- The `-?` prefix of the coordinate patterns: consume one leading
`'-'` when present, returning (consumed sign, remainder). -/
def stripDash (l : List Char) : List Char × List Char :=
  match l with
  | [] => ([], [])
  | c :: r => if c = '-' then (['-'], r) else ([], c :: r)

/-- `re.match(r'(-?\d{2})(\d{2}.\d{4})', latitude_raw)`
(src/protocols/h02.py:88-89), as the pair of captured groups.  The `.`
of the pattern matches any character except a newline — it is not the
literal decimal point.  `re.match` anchors at the start only; trailing
characters are ignored. -/
def matchLat (l : List Char) : Option (List Char × List Char) :=
  let p := stripDash l
  match p.2 with
  | d1 :: d2 :: m1 :: m2 :: c :: f1 :: f2 :: f3 :: f4 :: _ =>
    if isDigit d1 && isDigit d2 && isDigit m1 && isDigit m2 &&
        (c != '\n') && isDigit f1 && isDigit f2 && isDigit f3 && isDigit f4 then
      some (p.1 ++ [d1, d2], [m1, m2, c, f1, f2, f3, f4])
    else none
  | _ => none

/-- `re.match(r'(-?\d{3})(\d{2}.\d{4})', longitude_raw)`
(src/protocols/h02.py:109-110), as the pair of captured groups. -/
def matchLong (l : List Char) : Option (List Char × List Char) :=
  let p := stripDash l
  match p.2 with
  | d1 :: d2 :: d3 :: m1 :: m2 :: c :: f1 :: f2 :: f3 :: f4 :: _ =>
    if isDigit d1 && isDigit d2 && isDigit d3 && isDigit m1 && isDigit m2 &&
        (c != '\n') && isDigit f1 && isDigit f2 && isDigit f3 && isDigit f4 then
      some (p.1 ++ [d1, d2, d3], [m1, m2, c, f1, f2, f3, f4])
    else none
  | _ => none

/-- Body of the `H02._latitude` property (src/protocols/h02.py:78-97)
as a function of the raw token `regex_match.group(6)`:

```python
pattern = re.compile(r'(-?\d{2})(\d{2}.\d{4})')
match = re.match(pattern, latitude_raw)
degrees = int(match.group(1))
minutes = float(match.group(2))
result = degrees + minutes/60
result_formatted = format(result, '.6f')
return float(result_formatted)
```

A failed match makes `match.group(1)` raise `AttributeError`; a group-2
string `float` cannot parse raises `ValueError`. -/
def latitudeConv (latitude_raw : List Char) : Except PyError ℚ :=
  match matchLat latitude_raw with
  | none => .error .AttributeError
  | some (g1, g2) =>
    match pyInt g1 with
    | none => .error .ValueError
    | some degrees =>
      match floatParse g2 with
      | none => .error .ValueError
      | some minutes => .ok (roundTo 6 ((degrees : ℚ) + minutes / 60))

/-- Body of the `H02._longitude` property (src/protocols/h02.py:99-118)
as a function of the raw token `regex_match.group(8)`; identical to
`latitudeConv` except for the 3-digit degree part. -/
def longitudeConv (longitude_raw : List Char) : Except PyError ℚ :=
  match matchLong longitude_raw with
  | none => .error .AttributeError
  | some (g1, g2) =>
    match pyInt g1 with
    | none => .error .ValueError
    | some degrees =>
      match floatParse g2 with
      | none => .error .ValueError
      | some minutes => .ok (roundTo 6 ((degrees : ℚ) + minutes / 60))

/-- Body of the `H02._speed` property (src/protocols/h02.py:63-76) as a
function of the raw token `regex_match.group(10)`:

```python
kmh = float(raw_speed) * 1.852
kmh_formatted = format(kmh, '05.2f')
return float(kmh_formatted)
```

The zero-padding of `'05.2f'` does not change the numeric value, so
the result is the product rounded to 2 decimal places. -/
def speedConv (raw_speed : List Char) : Except PyError ℚ :=
  match floatParse raw_speed with
  | none => .error .ValueError
  | some v => .ok (roundTo 2 (v * (1.852 : ℚ)))

-- Character classification helpers.

theorem isDigit_ne_dash {c : Char} (h : isDigit c = true) : ¬(c = '-') := by
  intro hc; subst hc; exact absurd h (by decide)

theorem isDigit_ne_dot {c : Char} (h : isDigit c = true) : ¬(c = '.') := by
  intro hc; subst hc; exact absurd h (by decide)

theorem isDigit_bne_newline {c : Char} (h : isDigit c = true) :
    (c != '\n') = true := by
  by_cases hc : c = '\n'
  · subst hc; exact absurd h (by decide)
  · simpa [bne_iff_ne] using hc

-- Reduction lemmas for the parsing helpers.

theorem splitDot_all_digits (l : List Char) (h : l.all isDigit = true) :
    splitDot l = none := by
  induction l with
  | nil => rfl
  | cons c r ih =>
    simp only [List.all_cons, Bool.and_eq_true] at h
    simp [splitDot, isDigit_ne_dot h.1, ih h.2]

theorem splitDot_append (ip fp : List Char) (h : ip.all isDigit = true) :
    splitDot (ip ++ '.' :: fp) = some (ip, fp) := by
  induction ip with
  | nil => simp [splitDot]
  | cons c r ih =>
    simp only [List.all_cons, Bool.and_eq_true] at h
    simp [splitDot, isDigit_ne_dot h.1, ih h.2]

theorem floatParse_digits (l : List Char) (hne : l ≠ [])
    (h : l.all isDigit = true) : floatParse l = some ((digitsVal l : ℚ)) := by
  unfold floatParse
  rw [splitDot_all_digits l h]
  simp [hne, h]

theorem floatParse_two_dot_four (m1 m2 f1 f2 f3 f4 : Char)
    (h1 : isDigit m1 = true) (h2 : isDigit m2 = true) (h3 : isDigit f1 = true)
    (h4 : isDigit f2 = true) (h5 : isDigit f3 = true) (h6 : isDigit f4 = true) :
    floatParse [m1, m2, '.', f1, f2, f3, f4] =
      some ((digitsVal [m1, m2] : ℚ) + (digitsVal [f1, f2, f3, f4] : ℚ) / 10 ^ 4) := by
  have hs : splitDot [m1, m2, '.', f1, f2, f3, f4] =
      some ([m1, m2], [f1, f2, f3, f4]) := by
    have := splitDot_append [m1, m2] [f1, f2, f3, f4] (by simp [h1, h2])
    simpa using this
  unfold floatParse
  rw [hs]
  simp [h1, h2, h3, h4, h5, h6]

theorem pyInt_digits (c : Char) (ds : List Char)
    (h : (c :: ds).all isDigit = true) :
    pyInt (c :: ds) = some ((digitsVal (c :: ds) : ℤ)) := by
  have hc : isDigit c = true := by
    simp only [List.all_cons, Bool.and_eq_true] at h; exact h.1
  unfold pyInt
  simp [isDigit_ne_dash hc, h]

theorem pyInt_dash (ds : List Char) (hne : ds ≠ []) (h : ds.all isDigit = true) :
    pyInt ('-' :: ds) = some (-(digitsVal ds : ℤ)) := by
  unfold pyInt
  simp [hne, h]

theorem matchLat_cons (d1 d2 m1 m2 c f1 f2 f3 f4 : Char) (rest : List Char)
    (h1 : isDigit d1 = true) (h2 : isDigit d2 = true) (h3 : isDigit m1 = true)
    (h4 : isDigit m2 = true) (hc : (c != '\n') = true) (h5 : isDigit f1 = true)
    (h6 : isDigit f2 = true) (h7 : isDigit f3 = true) (h8 : isDigit f4 = true) :
    matchLat (d1 :: d2 :: m1 :: m2 :: c :: f1 :: f2 :: f3 :: f4 :: rest) =
      some ([d1, d2], [m1, m2, c, f1, f2, f3, f4]) := by
  unfold matchLat stripDash
  simp [isDigit_ne_dash h1, h1, h2, h3, h4, hc, h5, h6, h7, h8]

theorem matchLat_dash (d1 d2 m1 m2 c f1 f2 f3 f4 : Char) (rest : List Char)
    (h1 : isDigit d1 = true) (h2 : isDigit d2 = true) (h3 : isDigit m1 = true)
    (h4 : isDigit m2 = true) (hc : (c != '\n') = true) (h5 : isDigit f1 = true)
    (h6 : isDigit f2 = true) (h7 : isDigit f3 = true) (h8 : isDigit f4 = true) :
    matchLat ('-' :: d1 :: d2 :: m1 :: m2 :: c :: f1 :: f2 :: f3 :: f4 :: rest) =
      some (['-', d1, d2], [m1, m2, c, f1, f2, f3, f4]) := by
  unfold matchLat stripDash
  simp [h1, h2, h3, h4, hc, h5, h6, h7, h8]

theorem matchLong_cons (d1 d2 d3 m1 m2 c f1 f2 f3 f4 : Char) (rest : List Char)
    (h1 : isDigit d1 = true) (h2 : isDigit d2 = true) (h3 : isDigit d3 = true)
    (h4 : isDigit m1 = true) (h5 : isDigit m2 = true) (hc : (c != '\n') = true)
    (h6 : isDigit f1 = true) (h7 : isDigit f2 = true) (h8 : isDigit f3 = true)
    (h9 : isDigit f4 = true) :
    matchLong (d1 :: d2 :: d3 :: m1 :: m2 :: c :: f1 :: f2 :: f3 :: f4 :: rest) =
      some ([d1, d2, d3], [m1, m2, c, f1, f2, f3, f4]) := by
  unfold matchLong stripDash
  simp [isDigit_ne_dash h1, h1, h2, h3, h4, h5, hc, h6, h7, h8, h9]

theorem matchLong_dash (d1 d2 d3 m1 m2 c f1 f2 f3 f4 : Char) (rest : List Char)
    (h1 : isDigit d1 = true) (h2 : isDigit d2 = true) (h3 : isDigit d3 = true)
    (h4 : isDigit m1 = true) (h5 : isDigit m2 = true) (hc : (c != '\n') = true)
    (h6 : isDigit f1 = true) (h7 : isDigit f2 = true) (h8 : isDigit f3 = true)
    (h9 : isDigit f4 = true) :
    matchLong ('-' :: d1 :: d2 :: d3 :: m1 :: m2 :: c :: f1 :: f2 :: f3 :: f4 :: rest) =
      some (['-', d1, d2, d3], [m1, m2, c, f1, f2, f3, f4]) := by
  unfold matchLong stripDash
  simp [h1, h2, h3, h4, h5, hc, h6, h7, h8, h9]

/-- C2: for every raw coordinate string of the shape D{n}M2.M4 (n = 2
degree digits for latitude, n = 3 for longitude, optional leading minus
on the degree part), the conversion returns degrees + minutes/60 rounded
to 6 decimal places; in particular "4413.5467" converts to 44.225778 and
"12754.4324" to 127.907207. -/
theorem toDecimalDegrees_correct :
    (∀ (neg : Bool) (d1 d2 m1 m2 f1 f2 f3 f4 : Char),
      isDigit d1 = true → isDigit d2 = true → isDigit m1 = true →
      isDigit m2 = true → isDigit f1 = true → isDigit f2 = true →
      isDigit f3 = true → isDigit f4 = true →
      latitudeConv ((if neg then ['-'] else []) ++
          [d1, d2, m1, m2, '.', f1, f2, f3, f4]) =
        .ok (roundTo 6
          ((if neg then -(digitsVal [d1, d2] : ℚ) else (digitsVal [d1, d2] : ℚ)) +
            ((digitsVal [m1, m2] : ℚ) +
              (digitsVal [f1, f2, f3, f4] : ℚ) / 10 ^ 4) / 60))) ∧
    (∀ (neg : Bool) (d1 d2 d3 m1 m2 f1 f2 f3 f4 : Char),
      isDigit d1 = true → isDigit d2 = true → isDigit d3 = true →
      isDigit m1 = true → isDigit m2 = true → isDigit f1 = true →
      isDigit f2 = true → isDigit f3 = true → isDigit f4 = true →
      longitudeConv ((if neg then ['-'] else []) ++
          [d1, d2, d3, m1, m2, '.', f1, f2, f3, f4]) =
        .ok (roundTo 6
          ((if neg then -(digitsVal [d1, d2, d3] : ℚ) else (digitsVal [d1, d2, d3] : ℚ)) +
            ((digitsVal [m1, m2] : ℚ) +
              (digitsVal [f1, f2, f3, f4] : ℚ) / 10 ^ 4) / 60))) ∧
    latitudeConv ['4', '4', '1', '3', '.', '5', '4', '6', '7'] =
      .ok ((44.225778 : ℚ)) ∧
    longitudeConv ['1', '2', '7', '5', '4', '.', '4', '3', '2', '4'] =
      .ok ((127.907207 : ℚ)) := by
  refine ⟨?_, ?_, ?_, ?_⟩
  · intro neg d1 d2 m1 m2 f1 f2 f3 f4 h1 h2 h3 h4 h5 h6 h7 h8
    have hfp := floatParse_two_dot_four m1 m2 f1 f2 f3 f4 h3 h4 h5 h6 h7 h8
    cases neg with
    | false =>
      have hm := matchLat_cons d1 d2 m1 m2 '.' f1 f2 f3 f4 []
        h1 h2 h3 h4 (by decide) h5 h6 h7 h8
      have hint := pyInt_digits d1 [d2] (by simp [h1, h2])
      simp only [Bool.false_eq_true, if_false, List.nil_append,
        latitudeConv, hm, hint, hfp]
      push_cast
      ring_nf
    | true =>
      have hm := matchLat_dash d1 d2 m1 m2 '.' f1 f2 f3 f4 []
        h1 h2 h3 h4 (by decide) h5 h6 h7 h8
      have hint := pyInt_dash [d1, d2] (by simp) (by simp [h1, h2])
      simp only [if_true, List.cons_append, List.nil_append,
        latitudeConv, hm, hint, hfp]
      push_cast
      ring_nf
  · intro neg d1 d2 d3 m1 m2 f1 f2 f3 f4 h1 h2 h3 h4 h5 h6 h7 h8 h9
    have hfp := floatParse_two_dot_four m1 m2 f1 f2 f3 f4 h4 h5 h6 h7 h8 h9
    cases neg with
    | false =>
      have hm := matchLong_cons d1 d2 d3 m1 m2 '.' f1 f2 f3 f4 []
        h1 h2 h3 h4 h5 (by decide) h6 h7 h8 h9
      have hint := pyInt_digits d1 [d2, d3] (by simp [h1, h2, h3])
      simp only [Bool.false_eq_true, if_false, List.nil_append,
        longitudeConv, hm, hint, hfp]
      push_cast
      ring_nf
    | true =>
      have hm := matchLong_dash d1 d2 d3 m1 m2 '.' f1 f2 f3 f4 []
        h1 h2 h3 h4 h5 (by decide) h6 h7 h8 h9
      have hint := pyInt_dash [d1, d2, d3] (by simp) (by simp [h1, h2, h3])
      simp only [if_true, List.cons_append, List.nil_append,
        longitudeConv, hm, hint, hfp]
      push_cast
      ring_nf
  · have h : matchLat ['4', '4', '1', '3', '.', '5', '4', '6', '7'] =
        some (['4', '4'], ['1', '3', '.', '5', '4', '6', '7']) := by decide
    have h2 : pyInt ['4', '4'] = some 44 := by decide
    have h3 : splitDot ['1', '3', '.', '5', '4', '6', '7'] =
        some (['1', '3'], ['5', '4', '6', '7']) := by decide
    simp only [latitudeConv, floatParse, h, h2, h3]
    simp [isDigit, digitsVal, List.foldl]
    norm_num [roundTo, rndHalfEven]
  · have h : matchLong ['1', '2', '7', '5', '4', '.', '4', '3', '2', '4'] =
        some (['1', '2', '7'], ['5', '4', '.', '4', '3', '2', '4']) := by decide
    have h2 : pyInt ['1', '2', '7'] = some 127 := by decide
    have h3 : splitDot ['5', '4', '.', '4', '3', '2', '4'] =
        some (['5', '4'], ['4', '3', '2', '4']) := by decide
    simp only [longitudeConv, floatParse, h, h2, h3]
    simp [isDigit, digitsVal, List.foldl]
    norm_num [roundTo, rndHalfEven]

/-- Witness for C2 on the minus-signed latitude token "-4413.5467". -/
theorem toDecimalDegrees_correct_witness :
    latitudeConv ((if true then ['-'] else []) ++
        ['4', '4', '1', '3', '.', '5', '4', '6', '7']) =
      .ok (roundTo 6
        ((if true then -(digitsVal ['4', '4'] : ℚ) else (digitsVal ['4', '4'] : ℚ)) +
          ((digitsVal ['1', '3'] : ℚ) +
            (digitsVal ['5', '4', '6', '7'] : ℚ) / 10 ^ 4) / 60)) :=
  toDecimalDegrees_correct.1 true '4' '4' '1' '3' '5' '4' '6' '7'
    (by decide) (by decide) (by decide) (by decide)
    (by decide) (by decide) (by decide) (by decide)

/-- C3: for every raw speed token `float` can parse, the speed
conversion returns the knots value times 1.852 rounded to 2 decimal
places; in particular "010.00" converts to 18.52 km/h and "000.00" to
0.00 km/h.  (The zero-padding of `format(_, '05.2f')` does not change
the numeric value.) -/
theorem speed_knots_to_kmh :
    (∀ (l : List Char) (v : ℚ), floatParse l = some v →
      speedConv l = .ok (roundTo 2 (v * (1.852 : ℚ)))) ∧
    speedConv ['0', '1', '0', '.', '0', '0'] = .ok ((18.52 : ℚ)) ∧
    speedConv ['0', '0', '0', '.', '0', '0'] = .ok ((0 : ℚ)) := by
  refine ⟨?_, ?_, ?_⟩
  · intro l v h
    unfold speedConv
    rw [h]
  · have h : splitDot ['0', '1', '0', '.', '0', '0'] =
        some (['0', '1', '0'], ['0', '0']) := by decide
    simp only [speedConv, floatParse, h]
    simp [isDigit, digitsVal, List.foldl]
    norm_num [roundTo, rndHalfEven]
  · have h : splitDot ['0', '0', '0', '.', '0', '0'] =
        some (['0', '0', '0'], ['0', '0']) := by decide
    simp only [speedConv, floatParse, h]
    simp [isDigit, digitsVal, List.foldl]
    norm_num [roundTo, rndHalfEven]

/-- Witness for C3 on the one-digit token "5". -/
theorem speed_knots_to_kmh_witness :
    speedConv ['5'] = .ok (roundTo 2 ((5 : ℚ) * (1.852 : ℚ))) :=
  speed_knots_to_kmh.1 ['5'] 5
    (by simp [floatParse, splitDot, isDigit, digitsVal, List.foldl])

/-- C6 (amended): an input the code's (relaxed) coordinate pattern does
not match as a prefix — optional minus, fixed-width degree digits, two
minute digits, one arbitrary non-newline character, four digits — makes
the conversion fail with the `AttributeError` of calling `.group` on the
`None` match (the code has no `MalformedCoordinateError`), and no
numeric result is returned. -/
theorem coordinate_no_match_fails :
    (∀ l : List Char, matchLat l = none →
      latitudeConv l = .error .AttributeError) ∧
    (∀ l : List Char, matchLong l = none →
      longitudeConv l = .error .AttributeError) := by
  constructor
  · intro l h
    unfold latitudeConv
    rw [h]
  · intro l h
    unfold longitudeConv
    rw [h]

/-- Witness for the amended C6 at "44.135467" (decimal point too
early, so the minutes digits of the pattern fail to match). -/
theorem coordinate_no_match_fails_witness :
    latitudeConv ['4', '4', '.', '1', '3', '5', '4', '6', '7'] =
      .error .AttributeError :=
  coordinate_no_match_fails.1 ['4', '4', '.', '1', '3', '5', '4', '6', '7']
    (by decide)

/-- Counterexample to C6 as stated: "441395467" contains no decimal
point at all, so it does not match the `D{2}M2.M4` shape, yet the
latitude conversion raises no error: the pattern's `.` matches the
digit '9' and `float("1395467")` parses, giving
44 + 1395467/60 rounded to 6 places. -/
theorem latitude_no_dot_succeeds :
    latitudeConv ['4', '4', '1', '3', '9', '5', '4', '6', '7'] =
      .ok ((23301783333 : ℚ) / 1000000) := by
  have h : matchLat ['4', '4', '1', '3', '9', '5', '4', '6', '7'] =
      some (['4', '4'], ['1', '3', '9', '5', '4', '6', '7']) := by decide
  have h2 : pyInt ['4', '4'] = some 44 := by decide
  have h3 : splitDot ['1', '3', '9', '5', '4', '6', '7'] = none := by decide
  simp only [latitudeConv, floatParse, h, h2, h3]
  simp [isDigit, digitsVal, List.foldl]
  norm_num [roundTo, rndHalfEven]

/-- C10: a latitude token of 9 digits with no decimal point (and a
longitude token of 10 such digits) raises no error: the pattern's `.`
matches the middle digit, the whole 7-digit minutes group parses as an
integer, and a numeric result is returned. -/
theorem all_digit_coordinate_accepted :
    (∀ c1 c2 c3 c4 c5 c6 c7 c8 c9 : Char,
      isDigit c1 = true → isDigit c2 = true → isDigit c3 = true →
      isDigit c4 = true → isDigit c5 = true → isDigit c6 = true →
      isDigit c7 = true → isDigit c8 = true → isDigit c9 = true →
      latitudeConv [c1, c2, c3, c4, c5, c6, c7, c8, c9] =
        .ok (roundTo 6 ((digitsVal [c1, c2] : ℚ) +
          (digitsVal [c3, c4, c5, c6, c7, c8, c9] : ℚ) / 60))) ∧
    (∀ c1 c2 c3 c4 c5 c6 c7 c8 c9 c10 : Char,
      isDigit c1 = true → isDigit c2 = true → isDigit c3 = true →
      isDigit c4 = true → isDigit c5 = true → isDigit c6 = true →
      isDigit c7 = true → isDigit c8 = true → isDigit c9 = true →
      isDigit c10 = true →
      longitudeConv [c1, c2, c3, c4, c5, c6, c7, c8, c9, c10] =
        .ok (roundTo 6 ((digitsVal [c1, c2, c3] : ℚ) +
          (digitsVal [c4, c5, c6, c7, c8, c9, c10] : ℚ) / 60))) := by
  constructor
  · intro c1 c2 c3 c4 c5 c6 c7 c8 c9 h1 h2 h3 h4 h5 h6 h7 h8 h9
    have hm := matchLat_cons c1 c2 c3 c4 c5 c6 c7 c8 c9 []
      h1 h2 h3 h4 (isDigit_bne_newline h5) h6 h7 h8 h9
    have hint := pyInt_digits c1 [c2] (by simp [h1, h2])
    have hfp := floatParse_digits [c3, c4, c5, c6, c7, c8, c9] (by simp)
      (by simp [h3, h4, h5, h6, h7, h8, h9])
    simp only [latitudeConv, hm, hint, hfp]
    push_cast
    ring_nf
  · intro c1 c2 c3 c4 c5 c6 c7 c8 c9 c10 h1 h2 h3 h4 h5 h6 h7 h8 h9 h10
    have hm := matchLong_cons c1 c2 c3 c4 c5 c6 c7 c8 c9 c10 []
      h1 h2 h3 h4 h5 (isDigit_bne_newline h6) h7 h8 h9 h10
    have hint := pyInt_digits c1 [c2, c3] (by simp [h1, h2, h3])
    have hfp := floatParse_digits [c4, c5, c6, c7, c8, c9, c10] (by simp)
      (by simp [h4, h5, h6, h7, h8, h9, h10])
    simp only [longitudeConv, hm, hint, hfp]
    push_cast
    ring_nf

/-- Witness for C10 on the all-digit tokens "441395467" and
"1275443240". -/
theorem all_digit_coordinate_accepted_witness :
    latitudeConv ['4', '4', '1', '3', '9', '5', '4', '6', '7'] =
      .ok (roundTo 6 ((digitsVal ['4', '4'] : ℚ) +
        (digitsVal ['1', '3', '9', '5', '4', '6', '7'] : ℚ) / 60)) ∧
    longitudeConv ['1', '2', '7', '5', '4', '4', '3', '2', '4', '0'] =
      .ok (roundTo 6 ((digitsVal ['1', '2', '7'] : ℚ) +
        (digitsVal ['5', '4', '4', '3', '2', '4', '0'] : ℚ) / 60)) :=
  ⟨all_digit_coordinate_accepted.1 '4' '4' '1' '3' '9' '5' '4' '6' '7'
      (by decide) (by decide) (by decide) (by decide) (by decide)
      (by decide) (by decide) (by decide) (by decide),
    all_digit_coordinate_accepted.2 '1' '2' '7' '5' '4' '4' '3' '2' '4' '0'
      (by decide) (by decide) (by decide) (by decide) (by decide)
      (by decide) (by decide) (by decide) (by decide) (by decide)⟩

/-- `H02PacketDecoder.decode`
(src/protocols/h02/packet_decoder/packet_decoder.py:11-21):

```python
if raw_bytes.startswith(b'*'):
    return decode_h02_ascii_packet(raw_bytes)
elif raw_bytes.startswith(b'$'):
    return decode_h02_binary_packet(raw_bytes)
else:
    raise BadProtocolError
```

`decode_h02_ascii_packet` and `decode_h02_binary_packet` live in a
module that is not under src/, so they are parameters here, abstract in
the location type they produce.  The surrounding `except` clause only
re-raises the caught exceptions unchanged, so it is the identity.
`b'*'` is byte 42 and `b'$'` is byte 36; `startswith` on an empty byte
string is false for both, so the else branch raises. -/
def H02PacketDecoder.decode {α : Type}
    (decode_h02_ascii_packet decode_h02_binary_packet :
      List Nat → Except PyError α)
    (raw_bytes : List Nat) : Except PyError α :=
  match raw_bytes with
  | [] => .error .BadProtocolError
  | b :: _ =>
    if b = 42 then decode_h02_ascii_packet raw_bytes
    else if b = 36 then decode_h02_binary_packet raw_bytes
    else .error .BadProtocolError

/-- Modelled from the spec: `helpers.chunks.get_chunks` is imported by
src/protocols/h02.py:4 but its source is not under src/.  The spec says
the 8-hex-character status-bytes blob is split into exactly four
2-character tokens in transmission order, so `get_chunks s n` yields
the consecutive `n`-character chunks of `s`. -/
def get_chunks (l : List Char) (n : Nat) : List (List Char) :=
  if l = [] ∨ n = 0 then []
  else l.take n :: get_chunks (l.drop n) n
termination_by l.length
decreasing_by
  rename_i h
  push_neg at h
  have hl : l ≠ [] := h.1
  simp only [List.length_drop]
  cases l with
  | nil => exact absurd rfl hl
  | cons c cs => simp [List.length_cons]; omega

/-- The groups of the transmission-grammar regex match handed to
`H02.__init__` (the pattern itself lives with the base protocol,
outside src/; the groups consumed by src/protocols/h02.py are 1, 2, 4,
5, 6, 8, 10, 11, 13, 14, 15, 16, 17). -/
structure RegexMatch where
  g1 : List Char
  g2 : List Char
  g3 : List Char
  g4 : List Char
  g5 : List Char
  g6 : List Char
  g7 : List Char
  g8 : List Char
  g9 : List Char
  g10 : List Char
  g11 : List Char
  g12 : List Char
  g13 : List Char
  g14 : List Char
  g15 : List Char
  g16 : List Char
  g17 : List Char

/-- State of an `H02` instance after `__init__`
(src/protocols/h02.py:17-47): the stored regex match, the status byte
tokens chunked out of group 13, and the pass-through fields. -/
structure H02 where
  regex_match : RegexMatch
  vehicle_status_bytes : List (List Char)
  vehicle_status_first_byte : List Char
  vehicle_status_second_byte : List Char
  vehicle_status_third_byte : List Char
  vehicle_status_fourth_byte : List Char
  maker : List Char
  device_serial_number : List Char
  time : List Char
  validity : List Char
  direction : List Char
  mobile_country_code : List Char
  mobile_network_code : List Char
  local_area_code : List Char
  cell_id : List Char

/-- `H02.__init__` (src/protocols/h02.py:17-47): chunk group 13 into
2-character status byte tokens, index the first four (an `IndexError`
when fewer than four exist), and copy the pass-through groups. -/
def H02.init (regex_match : RegexMatch) : Except PyError H02 :=
  let bytes := get_chunks regex_match.g13 2
  match bytes[0]?, bytes[1]?, bytes[2]?, bytes[3]? with
  | some b1, some b2, some b3, some b4 =>
    .ok ⟨regex_match, bytes, b1, b2, b3, b4,
      regex_match.g1, regex_match.g2, regex_match.g4, regex_match.g5,
      regex_match.g11, regex_match.g14, regex_match.g15, regex_match.g16,
      regex_match.g17⟩
  | _, _, _, _ => .error .IndexError

/-- The `H02._acc` property (src/protocols/h02.py:49-61): a
negative-logic bit read at position 6 of the third status byte token. -/
def H02._acc (self : H02) : Except PyError Nat :=
  get_bit_state self.vehicle_status_third_byte 6

/-- The `H02._speed` property (src/protocols/h02.py:63-76) reads
group 10; the conversion body is `speedConv`. -/
def H02._speed (self : H02) : Except PyError ℚ :=
  speedConv self.regex_match.g10

/-- The `H02._latitude` property (src/protocols/h02.py:78-97) reads
group 6; the conversion body is `latitudeConv`. -/
def H02._latitude (self : H02) : Except PyError ℚ :=
  latitudeConv self.regex_match.g6

/-- The `H02._longitude` property (src/protocols/h02.py:99-118) reads
group 8; the conversion body is `longitudeConv`. -/
def H02._longitude (self : H02) : Except PyError ℚ :=
  longitudeConv self.regex_match.g8

theorem get_chunks_nil (n : Nat) : get_chunks [] n = [] := by
  rw [get_chunks]
  simp

theorem get_chunks_two (a b : Char) (rest : List Char) :
    get_chunks (a :: b :: rest) 2 = [a, b] :: get_chunks rest 2 := by
  rw [get_chunks]
  simp

/-- C4: decoding a raw byte sequence that is empty or starts with
neither `*` (42) nor `$` (36) fails with `BadProtocolError` (the spec's
`UnsupportedFrameError`) and never returns a location record; a leading
`*` delegates to the ASCII decode path and a leading `$` to the binary
decode path, whatever those paths are. -/
theorem decode_frame_dispatch :
    (∀ (α : Type) (a b : List Nat → Except PyError α),
      H02PacketDecoder.decode a b [] = .error .BadProtocolError) ∧
    (∀ (α : Type) (a b : List Nat → Except PyError α) (c : Nat) (r : List Nat),
      c ≠ 42 → c ≠ 36 →
      H02PacketDecoder.decode a b (c :: r) = .error .BadProtocolError) ∧
    (∀ (α : Type) (a b : List Nat → Except PyError α) (r : List Nat),
      H02PacketDecoder.decode a b (42 :: r) = a (42 :: r)) ∧
    (∀ (α : Type) (a b : List Nat → Except PyError α) (r : List Nat),
      H02PacketDecoder.decode a b (36 :: r) = b (36 :: r)) := by
  refine ⟨fun α a b => rfl, ?_, ?_, ?_⟩
  · intro α a b c r h42 h36
    unfold H02PacketDecoder.decode
    simp [h42, h36]
  · intro α a b r
    rfl
  · intro α a b r
    rfl

/-- Witness for C4 on the raw bytes `b"#garbage"` (`#` is byte 35). -/
theorem decode_frame_dispatch_witness :
    H02PacketDecoder.decode (fun _ => Except.ok (0 : Nat))
      (fun _ => Except.ok (0 : Nat))
      (35 :: [103, 97, 114, 98, 97, 103, 101]) = .error .BadProtocolError :=
  decode_frame_dispatch.2.1 Nat (fun _ => Except.ok 0) (fun _ => Except.ok 0)
    35 [103, 97, 114, 98, 97, 103, 101] (by decide) (by decide)

/-- C7: when regex group 13 is an 8-character blob, `H02.__init__`
splits it into exactly four 2-character tokens in transmission order,
and the ACC state is a negative-logic bit read on the third of those
tokens (the bit position consulted inside that token is 6). -/
theorem status_bytes_split_and_acc (m : RegexMatch)
    (c1 c2 c3 c4 c5 c6 c7 c8 : Char)
    (h : m.g13 = [c1, c2, c3, c4, c5, c6, c7, c8]) :
    ∃ self : H02, H02.init m = .ok self ∧
      self.vehicle_status_bytes = [[c1, c2], [c3, c4], [c5, c6], [c7, c8]] ∧
      self.vehicle_status_first_byte = [c1, c2] ∧
      self.vehicle_status_second_byte = [c3, c4] ∧
      self.vehicle_status_third_byte = [c5, c6] ∧
      self.vehicle_status_fourth_byte = [c7, c8] ∧
      H02._acc self = get_bit_state [c5, c6] 6 := by
  have hch : get_chunks m.g13 2 = [[c1, c2], [c3, c4], [c5, c6], [c7, c8]] := by
    rw [h, get_chunks_two, get_chunks_two, get_chunks_two, get_chunks_two,
      get_chunks_nil]
  refine ⟨⟨m, [[c1, c2], [c3, c4], [c5, c6], [c7, c8]],
    [c1, c2], [c3, c4], [c5, c6], [c7, c8],
    m.g1, m.g2, m.g4, m.g5, m.g11, m.g14, m.g15, m.g16, m.g17⟩,
    ?_, rfl, rfl, rfl, rfl, rfl, rfl⟩
  unfold H02.init
  rw [hch]
  rfl

/-- Witness for C7 with group 13 = "FFFF9FFF" (the docstring's
example blob). -/
theorem status_bytes_split_and_acc_witness :
    ∃ self : H02,
      H02.init ⟨[], [], [], [], [], [], [], [], [], [], [], [],
        ['F', 'F', 'F', 'F', '9', 'F', 'F', 'F'], [], [], [], []⟩ = .ok self ∧
      self.vehicle_status_bytes =
        [['F', 'F'], ['F', 'F'], ['9', 'F'], ['F', 'F']] ∧
      self.vehicle_status_first_byte = ['F', 'F'] ∧
      self.vehicle_status_second_byte = ['F', 'F'] ∧
      self.vehicle_status_third_byte = ['9', 'F'] ∧
      self.vehicle_status_fourth_byte = ['F', 'F'] ∧
      H02._acc self = get_bit_state ['9', 'F'] 6 :=
  status_bytes_split_and_acc
    ⟨[], [], [], [], [], [], [], [], [], [], [], [],
      ['F', 'F', 'F', 'F', '9', 'F', 'F', 'F'], [], [], [], []⟩
    'F' 'F' 'F' 'F' '9' 'F' 'F' 'F' rfl

/-- C8: decoding is deterministic and the derived fields are pure: the
dispatch result is a function of the raw bytes alone, and the derived
latitude, longitude, speed and ACC recompute to the same value from the
same parsed fields on every access (each is a function of the stored
regex groups / status token only). -/
theorem decode_deterministic :
    (∀ (α : Type) (a b : List Nat → Except PyError α) (r1 r2 : List Nat),
      r1 = r2 →
      H02PacketDecoder.decode a b r1 = H02PacketDecoder.decode a b r2) ∧
    (∀ s1 s2 : H02, s1.regex_match = s2.regex_match →
      s1.vehicle_status_third_byte = s2.vehicle_status_third_byte →
      H02._latitude s1 = H02._latitude s2 ∧
      H02._longitude s1 = H02._longitude s2 ∧
      H02._speed s1 = H02._speed s2 ∧
      H02._acc s1 = H02._acc s2) := by
  constructor
  · intro α a b r1 r2 h
    rw [h]
  · intro s1 s2 hm hb
    unfold H02._latitude H02._longitude H02._speed H02._acc
    rw [hm, hb]
    exact ⟨rfl, rfl, rfl, rfl⟩

/-- Witness for C8 on the raw bytes `[42]` and two structurally equal
states. -/
theorem decode_deterministic_witness :
    H02PacketDecoder.decode (fun _ => Except.ok (0 : Nat))
        (fun _ => Except.ok (0 : Nat)) [42] =
      H02PacketDecoder.decode (fun _ => Except.ok (0 : Nat))
        (fun _ => Except.ok (0 : Nat)) [42] :=
  decode_deterministic.1 Nat (fun _ => Except.ok 0) (fun _ => Except.ok 0)
    [42] [42] rfl
